import Mathlib

/-!
Verification development for the paykit payment-abstraction engine.

The JavaScript sources are embedded shallowly: pure functions become Lean
functions, asynchronous methods that may throw become functions into
`Except String`, the database and the transport become explicit state or
oracle functions, and epoch-millisecond timestamps become `Nat` arguments
passed by the caller.  Two components of the repository are present only
through their tests and type declarations (the PaymentState class and the
DB class); their definitions below are modelled from the specification and
marked as such in their doc comments.
-/

namespace Paykit

/-! ## PaymentState -/

/-- Internal state of an outgoing payment. -/
inductive InternalState where
  | INITIAL
  | IN_PROGRESS
  | COMPLETED
  | FAILED
  | CANCELLED
deriving DecidableEq, Repr

/-- State of one plugin attempt. -/
inductive PluginRunState where
  | SUBMITTED
  | FAILED
  | SUCCESS
deriving DecidableEq, Repr

/-- Record of a plugin attempt: name, start and end timestamps, outcome. -/
structure StatePlugin where
  name : String
  startAt : Nat
  endAt : Option Nat
  state : PluginRunState
deriving DecidableEq, Repr

/-- Modelled from the spec: the PaymentState class
(src/payments/PaymentState.js is absent from the sources; only its test
and its type declaration are present).  Fields follow section 3 of the
specification and the serialized shape exercised by the test. -/
structure PaymentState where
  internalState : InternalState
  pendingPlugins : List String
  triedPlugins : List StatePlugin
  currentPlugin : Option StatePlugin
  completedByPlugin : Option StatePlugin
deriving DecidableEq, Repr

/-- Errors raised by PaymentState transitions. -/
inductive PSError where
  | INVALID_STATE (s : InternalState)
  | PLUGIN_IN_PROGRESS (name : String)
  | NO_CURRENT_PLUGIN
deriving DecidableEq, Repr

/-- Modelled from the spec: a freshly constructed PaymentState over a
pending-plugin queue: INITIAL state, empty tried log, no current and no
completing plugin. -/
def PaymentState.make (pendingPlugins : List String) : PaymentState :=
  { internalState := .INITIAL
    pendingPlugins := pendingPlugins
    triedPlugins := []
    currentPlugin := none
    completedByPlugin := none }

/-- Modelled from the spec: `process()` is the combined driver.  A current
plugin raises PLUGIN_IN_PROGRESS; a terminal state raises INVALID_STATE;
from INITIAL the state advances to IN_PROGRESS; then with pending plugins
the head is popped into `currentPlugin` with state SUBMITTED and the call
returns true, and with an empty queue the payment is failed and the call
returns false. -/
def PaymentState.process (ps : PaymentState) (now : Nat) :
    Except PSError (PaymentState × Bool) :=
  match ps.currentPlugin with
  | some c => .error (.PLUGIN_IN_PROGRESS c.name)
  | none =>
    if ps.internalState = .INITIAL ∨ ps.internalState = .IN_PROGRESS then
      let ps1 := { ps with internalState := .IN_PROGRESS }
      match ps1.pendingPlugins with
      | [] => .ok ({ ps1 with internalState := .FAILED }, false)
      | h :: t =>
        .ok ({ ps1 with
                pendingPlugins := t
                currentPlugin := some ⟨h, now, none, .SUBMITTED⟩ }, true)
    else .error (.INVALID_STATE ps.internalState)

/-- Modelled from the spec: `failCurrentPlugin()` requires IN_PROGRESS,
appends the current plugin to `triedPlugins` with state FAILED and an end
timestamp, and clears `currentPlugin`. -/
def PaymentState.failCurrentPlugin (ps : PaymentState) (now : Nat) :
    Except PSError PaymentState :=
  if ps.internalState = .IN_PROGRESS then
    match ps.currentPlugin with
    | none => .error .NO_CURRENT_PLUGIN
    | some c =>
      .ok { ps with
              triedPlugins :=
                ps.triedPlugins ++ [{ c with endAt := some now, state := .FAILED }]
              currentPlugin := none }
  else .error (.INVALID_STATE ps.internalState)

/-- Modelled from the spec: `complete()` requires IN_PROGRESS with a
current plugin, records it as `completedByPlugin` with state SUCCESS and
an end timestamp, clears `currentPlugin` and moves to COMPLETED. -/
def PaymentState.complete (ps : PaymentState) (now : Nat) :
    Except PSError PaymentState :=
  if ps.internalState = .IN_PROGRESS then
    match ps.currentPlugin with
    | none => .error .NO_CURRENT_PLUGIN
    | some c =>
      .ok { ps with
              internalState := .COMPLETED
              completedByPlugin := some { c with endAt := some now, state := .SUCCESS }
              currentPlugin := none }
  else .error (.INVALID_STATE ps.internalState)

/-- One retry round as driven by the sender: `process()` followed by
`failCurrentPlugin()`, both at time `now`. -/
def PaymentState.round (ps : PaymentState) (now : Nat) : Except PSError PaymentState :=
  (ps.process now).bind fun r => r.1.failCurrentPlugin now

/-- Iterate `round` a given number of times at time 0. -/
def PaymentState.runRounds (ps : PaymentState) : Nat → Except PSError PaymentState
  | 0 => .ok ps
  | n + 1 => (ps.round 0).bind fun ps1 => ps1.runRounds n

/-- The tried-plugin record produced by a failed attempt started and ended
at time 0. -/
def failedRun (nm : String) : StatePlugin := ⟨nm, 0, some 0, .FAILED⟩

theorem runRounds_drain (l : List String) (T : List StatePlugin) :
    PaymentState.runRounds ⟨.IN_PROGRESS, l, T, none, none⟩ l.length =
      .ok ⟨.IN_PROGRESS, [], T ++ l.map failedRun, none, none⟩ := by
  induction l generalizing T with
  | nil => simp [PaymentState.runRounds]
  | cons h t ih =>
    have hstep : (⟨.IN_PROGRESS, h :: t, T, none, none⟩ : PaymentState).round 0 =
        .ok ⟨.IN_PROGRESS, t, T ++ [failedRun h], none, none⟩ := by
      simp [PaymentState.round, PaymentState.process, PaymentState.failCurrentPlugin,
        Except.bind, failedRun]
    simp only [List.length_cons, PaymentState.runRounds, hstep, Except.bind]
    rw [ih (T ++ [failedRun h])]
    simp

/-- C1: a freshly constructed PaymentState over a non-empty queue
`p :: rest` advances on the first `process()`: the head is popped into
`currentPlugin` with state SUBMITTED, the call returns true and the state
is IN_PROGRESS.  After one round of `process()` plus `failCurrentPlugin()`
per queue entry, a further `process()` on the empty queue returns false
and moves to FAILED, with `triedPlugins` listing every queue entry in the
original order, each with state FAILED. -/
theorem C1_process_drains_queue (p : String) (rest : List String) :
    (PaymentState.make (p :: rest)).process 0 =
      .ok (⟨.IN_PROGRESS, rest, [], some ⟨p, 0, none, .SUBMITTED⟩, none⟩, true)
    ∧ ((PaymentState.make (p :: rest)).runRounds (rest.length + 1)).bind
        (fun ps => ps.process 0) =
      .ok (⟨.FAILED, [], (p :: rest).map failedRun, none, none⟩, false) := by
  constructor
  · simp [PaymentState.make, PaymentState.process]
  · have h1 : (PaymentState.make (p :: rest)).round 0 =
        .ok ⟨.IN_PROGRESS, rest, [failedRun p], none, none⟩ := by
      simp [PaymentState.make, PaymentState.round, PaymentState.process,
        PaymentState.failCurrentPlugin, Except.bind, failedRun]
    simp only [PaymentState.runRounds, h1, Except.bind]
    rw [runRounds_drain rest [failedRun p]]
    simp [PaymentState.process]

/-! ## PaymentOrder.init (src/payments/PaymentOrder.js) -/

/-- A payment created by `PaymentOrder.init`; only its scheduled execution
time matters here, the remaining fields are copied from the order params
(`createPaymentObjects` in src/payments/PaymentOrder.js). -/
structure OrderPayment where
  executeAt : Nat
deriving DecidableEq, Repr

/-- `CONFIG.BATCH_SIZE` from src/payments/PaymentOrder.js. -/
def BATCH_SIZE : Nat := 100

/-- `createPaymentObjects(counter)`: pushes `counter` payments with
`executeAt = firstPaymentAt + frequency * i` for `i` from 0. -/
def createPaymentObjects (firstPaymentAt frequency counter : Nat) : List OrderPayment :=
  (List.range counter).map fun i => ⟨firstPaymentAt + frequency * i⟩

/-- `createPaymentForRecurringOrder()`: when `lastPaymentAt` is set the
count is the floor of `(lastPaymentAt - firstPaymentAt) / frequency`
(timestamps are epoch milliseconds, so `Nat` division matches the
`Math.floor` call of the source whenever `firstPaymentAt ≤ lastPaymentAt`, and both
give zero payments otherwise); with no `lastPaymentAt` the count is
`BATCH_SIZE`. -/
def createPaymentForRecurringOrder (firstPaymentAt frequency : Nat)
    (lastPaymentAt : Option Nat) : List OrderPayment :=
  match lastPaymentAt with
  | some last => createPaymentObjects firstPaymentAt frequency ((last - firstPaymentAt) / frequency)
  | none => createPaymentObjects firstPaymentAt frequency BATCH_SIZE

/-- The payments materialised by `PaymentOrder.init()`: one payment for a
one-time order (`frequency = 0`), a recurring batch otherwise. -/
def orderInitPayments (frequency firstPaymentAt : Nat)
    (lastPaymentAt : Option Nat) : List OrderPayment :=
  if frequency = 0 then createPaymentObjects firstPaymentAt frequency 1
  else createPaymentForRecurringOrder firstPaymentAt frequency lastPaymentAt

/-- C2: `init()` with frequency 0 creates exactly one payment scheduled at
`firstPaymentAt`; with frequency `f ≥ 1` and `lastPaymentAt` set it
creates exactly `(lastPaymentAt - firstPaymentAt) / f` payments (floor
division), the i-th scheduled at `firstPaymentAt + i·f` — in particular
frequency 1000 from `t` to `t + 5000` yields the five payments
`t, t+1000, …, t+4000` — and with `lastPaymentAt` unset it creates
exactly 100 payments. -/
theorem C2_order_init_payments (f t last : Nat) (hf : 1 ≤ f) :
    (∀ t0 l0, orderInitPayments 0 t0 l0 = [⟨t0⟩])
    ∧ (orderInitPayments f t (some last)).length = (last - t) / f
    ∧ (∀ i, i < (last - t) / f →
        (orderInitPayments f t (some last))[i]? = some ⟨t + f * i⟩)
    ∧ orderInitPayments 1000 t (some (t + 5000)) =
        [⟨t⟩, ⟨t + 1000⟩, ⟨t + 2000⟩, ⟨t + 3000⟩, ⟨t + 4000⟩]
    ∧ (orderInitPayments f t none).length = 100 := by
  have hfne : f ≠ 0 := Nat.one_le_iff_ne_zero.mp hf
  refine ⟨?_, ?_, ?_, ?_, ?_⟩
  · intro t0 l0
    simp [orderInitPayments, createPaymentObjects, List.range_succ]
  · simp [orderInitPayments, hfne, createPaymentForRecurringOrder, createPaymentObjects]
  · intro i hi
    simp [orderInitPayments, hfne, createPaymentForRecurringOrder, createPaymentObjects,
      List.getElem?_range, hi]
  · have : (t + 5000 - t) / 1000 = 5 := by omega
    simp [orderInitPayments, createPaymentForRecurringOrder, this, createPaymentObjects,
      List.range_succ]
  · simp [orderInitPayments, hfne, createPaymentForRecurringOrder, createPaymentObjects,
      BATCH_SIZE]

/-- Witness for C2 at frequency 2, firstPaymentAt 10, lastPaymentAt 17. -/
theorem C2_order_init_payments_witness :
    (1 ≤ 2)
    ∧ ((∀ t0 l0, orderInitPayments 0 t0 l0 = [⟨t0⟩])
      ∧ (orderInitPayments 2 10 (some 17)).length = (17 - 10) / 2
      ∧ (∀ i, i < (17 - 10) / 2 →
          (orderInitPayments 2 10 (some 17))[i]? = some ⟨10 + 2 * i⟩)
      ∧ orderInitPayments 1000 10 (some (10 + 5000)) =
          [⟨10⟩, ⟨10 + 1000⟩, ⟨10 + 2000⟩, ⟨10 + 3000⟩, ⟨10 + 4000⟩]
      ∧ (orderInitPayments 2 10 none).length = 100) :=
  ⟨by decide, C2_order_init_payments 2 10 17 (by decide)⟩

/-! ## PaymentSender (src/payments/PaymentSender.js)

The sender methods are asynchronous JavaScript that call back into
`submit()` and `paymentOrder.complete()`.  Those two collaborator calls
are passed in as outcome oracles (`Except String Unit`), so each method
becomes a pure function of its inputs and the outcomes of the calls it
makes; thrown errors are the `Except.error` branch carrying the error
message. -/

/-- `ERRORS.NO_PLUGINS_AVAILABLE` in src/payments/PaymentSender.js. -/
def NO_PLUGINS_AVAILABLE : String := "No plugins available for making payment"

/-- `ERRORS.PAYMENT_TARGET_NOT_FOUND` in src/payments/PaymentSender.js. -/
def PAYMENT_TARGET_NOT_FOUND : String := "Payment target not found"

/-- `ORDER_ERRORS.OUTSTANDING_PAYMENTS` in src/payments/PaymentOrder.js. -/
def OUTSTANDING_PAYMENTS : String := "There are outstanding payments"

/-- `ORDER_ERRORS.ORDER_CANCELLED` in src/payments/PaymentOrder.js. -/
def ORDER_CANCELLED : String := "Order is cancelled"

/-- `ORDER_ERRORS.ORDER_COMPLETED` in src/payments/PaymentOrder.js. -/
def ORDER_COMPLETED : String := "Order is completed"

/-- Marker for a JavaScript TypeError escaping from the engine, raised for
example by destructuring a nil value or calling a method of nil. -/
def jsTypeError : String := "TypeError"

/-- The `pluginUpdate` written onto a payment by the plugin callback. -/
structure PluginUpdate where
  pluginState : String
  message : String
deriving DecidableEq, Repr

/-- The slice of a PaymentObject the sender manipulates: its state machine
and the last plugin update written onto it. -/
structure SenderPayment where
  state : PaymentState
  pluginUpdate : Option PluginUpdate
deriving DecidableEq, Repr

/-- A call of the entry-point-for-plugin callback, by payload shape. -/
inductive Report where
  | updateReport (u : Option PluginUpdate)
  | paymentReport (p : SenderPayment)
  | errorReport (msg : String)
  | orderPartiallyComplete
deriving DecidableEq, Repr

/-- Message carried by an error thrown from a PaymentState transition. -/
def PSError.message : PSError → String
  | .INVALID_STATE _ => "Invalid state"
  | .PLUGIN_IN_PROGRESS _ => "Current plugin is in progress"
  | .NO_CURRENT_PLUGIN => "No current plugin"

/-- `handleFailure(payment)`: fail the current plugin, report the plugin
update to the entry-point callback, then retry via `submit()` (outcome
passed as `submitOutcome`); a NO_PLUGINS_AVAILABLE error from the retry is
reported instead of rethrown, any other retry error propagates. -/
def handleFailure (payment : SenderPayment) (now : Nat)
    (submitOutcome : Except String Unit) :
    Except String (SenderPayment × List Report) := do
  let st ← (payment.state.failCurrentPlugin now).mapError PSError.message
  let payment1 : SenderPayment := { payment with state := st }
  let reports := [Report.updateReport payment.pluginUpdate]
  match submitOutcome with
  | .ok _ => .ok (payment1, reports)
  | .error e =>
    if e = NO_PLUGINS_AVAILABLE then .ok (payment1, reports ++ [Report.errorReport e])
    else .error e

/-- `handleSuccess(payment)`: complete the payment, report it, then try
`paymentOrder.complete()` (outcome passed as `orderCompleteOutcome`).  An
OUTSTANDING_PAYMENTS error triggers a re-submit (outcome
`submitOutcome`) followed by a partial-completion report; any other error
from the order completion propagates.  The boolean in the result records
whether `submit()` was re-invoked. -/
def handleSuccess (payment : SenderPayment) (now : Nat)
    (orderCompleteOutcome submitOutcome : Except String Unit) :
    Except String (SenderPayment × List Report × Bool) := do
  let st ← (payment.state.complete now).mapError PSError.message
  let payment1 : SenderPayment := { payment with state := st }
  let reports := [Report.paymentReport payment1]
  match orderCompleteOutcome with
  | .ok _ => .ok (payment1, reports, false)
  | .error e =>
    if e = OUTSTANDING_PAYMENTS then
      match submitOutcome with
      | .ok _ => .ok (payment1, reports ++ [Report.orderPartiallyComplete], true)
      | .error e2 => .error e2
    else .error e

/-- `handlePluginState(payment)`: dispatch on `pluginUpdate.pluginState`:
"failed" goes to `handleFailure`, "success" to `handleSuccess`, anything
else forwards the payment itself to the entry-point callback.  A missing
`pluginUpdate` would be a nil property access in the source. -/
def handlePluginState (payment : SenderPayment) (now : Nat)
    (submitOutcome orderCompleteOutcome : Except String Unit) :
    Except String (SenderPayment × List Report) :=
  match payment.pluginUpdate with
  | none => .error jsTypeError
  | some u =>
    if u.pluginState = "failed" then handleFailure payment now submitOutcome
    else if u.pluginState = "success" then
      (handleSuccess payment now orderCompleteOutcome submitOutcome).map
        fun r => (r.1, r.2.1)
    else .ok (payment, [Report.paymentReport payment])

/-- C3: a "failed" plugin callback for the in-progress payment dispatches
to `handleFailure`, which fails the current plugin and reports the failed
update; a NO_PLUGINS_AVAILABLE error from the retried `submit()` is
reported to the entry-point callback and not rethrown, and any retry
error with a different message propagates to the caller. -/
theorem C3_failed_callback_retries (payment : SenderPayment) (u : PluginUpdate)
    (c : StatePlugin) (now : Nat)
    (hupd : payment.pluginUpdate = some u) (hfail : u.pluginState = "failed")
    (hip : payment.state.internalState = .IN_PROGRESS)
    (hcur : payment.state.currentPlugin = some c) :
    (∀ so oc, handlePluginState payment now so oc = handleFailure payment now so)
    ∧ handleFailure payment now (.ok ()) =
        .ok ({ payment with state :=
                { payment.state with
                    triedPlugins := payment.state.triedPlugins ++
                      [{ c with endAt := some now, state := .FAILED }]
                    currentPlugin := none } },
             [Report.updateReport (some u)])
    ∧ handleFailure payment now (.error NO_PLUGINS_AVAILABLE) =
        .ok ({ payment with state :=
                { payment.state with
                    triedPlugins := payment.state.triedPlugins ++
                      [{ c with endAt := some now, state := .FAILED }]
                    currentPlugin := none } },
             [Report.updateReport (some u),
              Report.errorReport NO_PLUGINS_AVAILABLE])
    ∧ (∀ e, e ≠ NO_PLUGINS_AVAILABLE →
        handleFailure payment now (.error e) = .error e) := by
  have hstep : payment.state.failCurrentPlugin now =
      .ok { payment.state with
              triedPlugins := payment.state.triedPlugins ++
                [{ c with endAt := some now, state := .FAILED }]
              currentPlugin := none } := by
    simp [PaymentState.failCurrentPlugin, hip, hcur]
  refine ⟨?_, ?_, ?_, ?_⟩
  · intro so oc
    simp [handlePluginState, hupd, hfail]
  · simp [handleFailure, hstep, hupd, Except.mapError, Bind.bind, Except.bind]
  · simp [handleFailure, hstep, hupd, Except.mapError, Bind.bind, Except.bind]
  · intro e he
    simp [handleFailure, hstep, Except.mapError, he, Bind.bind, Except.bind]

/-- Concrete payment used as a witness input for the sender theorems. -/
def witnessSenderPayment (u : PluginUpdate) : SenderPayment :=
  { state := ⟨.IN_PROGRESS, ["p2tr"], [], some ⟨"p2sh", 0, none, .SUBMITTED⟩, none⟩
    pluginUpdate := some u }

/-- Witness for C3 at a concrete in-progress payment with a failed update. -/
theorem C3_failed_callback_retries_witness :
    (∀ so oc, handlePluginState (witnessSenderPayment ⟨"failed", "no funds"⟩) 7 so oc =
        handleFailure (witnessSenderPayment ⟨"failed", "no funds"⟩) 7 so)
    ∧ handleFailure (witnessSenderPayment ⟨"failed", "no funds"⟩) 7 (.ok ()) =
        .ok ({ witnessSenderPayment ⟨"failed", "no funds"⟩ with state :=
                { (witnessSenderPayment ⟨"failed", "no funds"⟩).state with
                    triedPlugins :=
                      (witnessSenderPayment ⟨"failed", "no funds"⟩).state.triedPlugins ++
                        [{ (⟨"p2sh", 0, none, .SUBMITTED⟩ : StatePlugin) with
                            endAt := some 7, state := .FAILED }]
                    currentPlugin := none } },
             [Report.updateReport (some ⟨"failed", "no funds"⟩)])
    ∧ handleFailure (witnessSenderPayment ⟨"failed", "no funds"⟩) 7
        (.error NO_PLUGINS_AVAILABLE) =
        .ok ({ witnessSenderPayment ⟨"failed", "no funds"⟩ with state :=
                { (witnessSenderPayment ⟨"failed", "no funds"⟩).state with
                    triedPlugins :=
                      (witnessSenderPayment ⟨"failed", "no funds"⟩).state.triedPlugins ++
                        [{ (⟨"p2sh", 0, none, .SUBMITTED⟩ : StatePlugin) with
                            endAt := some 7, state := .FAILED }]
                    currentPlugin := none } },
             [Report.updateReport (some ⟨"failed", "no funds"⟩),
              Report.errorReport NO_PLUGINS_AVAILABLE])
    ∧ (∀ e, e ≠ NO_PLUGINS_AVAILABLE →
        handleFailure (witnessSenderPayment ⟨"failed", "no funds"⟩) 7 (.error e) =
          .error e) :=
  C3_failed_callback_retries (witnessSenderPayment ⟨"failed", "no funds"⟩)
    ⟨"failed", "no funds"⟩ ⟨"p2sh", 0, none, .SUBMITTED⟩ 7 rfl rfl rfl rfl

/-- C4: after a successful plugin callback completes the payment and
reports it, the sender re-invokes `submit()` and reports partial
completion exactly when `paymentOrder.complete()` raised an error whose
message equals OUTSTANDING_PAYMENTS; any other order-completion error
propagates to the caller. -/
theorem C4_success_resubmits_iff_outstanding (payment : SenderPayment)
    (c : StatePlugin) (now : Nat)
    (hip : payment.state.internalState = .IN_PROGRESS)
    (hcur : payment.state.currentPlugin = some c) :
    (∀ so, handleSuccess payment now (.ok ()) so =
        .ok ({ payment with state :=
                { payment.state with
                    internalState := .COMPLETED
                    completedByPlugin :=
                      some { c with endAt := some now, state := .SUCCESS }
                    currentPlugin := none } },
             [Report.paymentReport
                { payment with state :=
                    { payment.state with
                        internalState := .COMPLETED
                        completedByPlugin :=
                          some { c with endAt := some now, state := .SUCCESS }
                        currentPlugin := none } }], false))
    ∧ handleSuccess payment now (.error OUTSTANDING_PAYMENTS) (.ok ()) =
        .ok ({ payment with state :=
                { payment.state with
                    internalState := .COMPLETED
                    completedByPlugin :=
                      some { c with endAt := some now, state := .SUCCESS }
                    currentPlugin := none } },
             [Report.paymentReport
                { payment with state :=
                    { payment.state with
                        internalState := .COMPLETED
                        completedByPlugin :=
                          some { c with endAt := some now, state := .SUCCESS }
                        currentPlugin := none } },
              Report.orderPartiallyComplete], true)
    ∧ (∀ e, e ≠ OUTSTANDING_PAYMENTS → ∀ so,
        handleSuccess payment now (.error e) so = .error e) := by
  have hstep : payment.state.complete now =
      .ok { payment.state with
              internalState := .COMPLETED
              completedByPlugin := some { c with endAt := some now, state := .SUCCESS }
              currentPlugin := none } := by
    simp [PaymentState.complete, hip, hcur]
  refine ⟨?_, ?_, ?_⟩
  · intro so
    simp [handleSuccess, hstep, Except.mapError, Bind.bind, Except.bind]
  · simp [handleSuccess, hstep, Except.mapError, Bind.bind, Except.bind]
  · intro e he so
    simp [handleSuccess, hstep, Except.mapError, he, Bind.bind, Except.bind]

/-- Witness for C4 at a concrete in-progress payment, applying the ORDER_CANCELLED
and ORDER_COMPLETED errors as the propagating cases. -/
theorem C4_success_resubmits_iff_outstanding_witness :
    handleSuccess (witnessSenderPayment ⟨"success", ""⟩) 3 (.ok ()) (.ok ()) =
      .ok ({ witnessSenderPayment ⟨"success", ""⟩ with state :=
              { (witnessSenderPayment ⟨"success", ""⟩).state with
                  internalState := .COMPLETED
                  completedByPlugin :=
                    some { (⟨"p2sh", 0, none, .SUBMITTED⟩ : StatePlugin) with
                             endAt := some 3, state := .SUCCESS }
                  currentPlugin := none } },
           [Report.paymentReport
              { witnessSenderPayment ⟨"success", ""⟩ with state :=
                  { (witnessSenderPayment ⟨"success", ""⟩).state with
                      internalState := .COMPLETED
                      completedByPlugin :=
                        some { (⟨"p2sh", 0, none, .SUBMITTED⟩ : StatePlugin) with
                                 endAt := some 3, state := .SUCCESS }
                      currentPlugin := none } }], false)
    ∧ handleSuccess (witnessSenderPayment ⟨"success", ""⟩) 3
        (.error ORDER_CANCELLED) (.ok ()) = .error ORDER_CANCELLED
    ∧ handleSuccess (witnessSenderPayment ⟨"success", ""⟩) 3
        (.error ORDER_COMPLETED) (.ok ()) = .error ORDER_COMPLETED :=
  ⟨(C4_success_resubmits_iff_outstanding (witnessSenderPayment ⟨"success", ""⟩)
      ⟨"p2sh", 0, none, .SUBMITTED⟩ 3 rfl rfl).1 (.ok ()),
   (C4_success_resubmits_iff_outstanding (witnessSenderPayment ⟨"success", ""⟩)
      ⟨"p2sh", 0, none, .SUBMITTED⟩ 3 rfl rfl).2.2 ORDER_CANCELLED
      (by decide) (.ok ()),
   (C4_success_resubmits_iff_outstanding (witnessSenderPayment ⟨"success", ""⟩)
      ⟨"p2sh", 0, none, .SUBMITTED⟩ 3 rfl rfl).2.2 ORDER_COMPLETED
      (by decide) (.ok ())⟩

/-! ## PaymentSender.submit endpoint resolution -/

/-- The counterparty catalogue read from the transport:
`{ paymentEndpoints: { name → url } }`. -/
structure Catalogue where
  paymentEndpoints : List (String × String)
deriving DecidableEq, Repr

/-- Transport oracle for `submit()`.  The source uses a single
`readRemote(url)`; it is split here by call site so each read is typed:
the catalogue read takes the counterparty URL, and the endpoint read takes
an optional URL because the source passes `paymentEndpoints[name]`, which
may be nil. -/
structure Transport where
  readCatalogue : String → Option Catalogue
  readTarget : Option String → Option String

/-- `paymentEndpoints[name]` on the catalogue object. -/
def lookupEndpoint (cat : Catalogue) (name : String) : Option String :=
  (cat.paymentEndpoints.find? fun kv => kv.1 = name).map fun kv => kv.2

/-- Outcome of `submit()` past the order-processing step: either the
plugin `pay` call was issued against a resolved target, or the missing
target was recovered through `handleFailure`. -/
inductive SubmitResult where
  | paid (target : String)
  | recovered (payment : SenderPayment) (reports : List Report)
deriving DecidableEq, Repr

/-- The endpoint-resolution tail of `submit()` (src/payments/PaymentSender.js):
destructure `paymentEndpoints` out of the catalogue read (a nil catalogue
makes that destructuring throw a TypeError), look up the endpoint for the
current plugin name, read the target there, and on a nil target set
`pluginUpdate` to a failed PAYMENT_TARGET_NOT_FOUND update and delegate to
`handleFailure`; otherwise invoke the plugin `pay`. -/
def submitResolve (tr : Transport) (payment : SenderPayment)
    (counterpartyURL pluginName : String) (now : Nat)
    (submitOutcome : Except String Unit) : Except String SubmitResult :=
  match tr.readCatalogue counterpartyURL with
  | none => .error jsTypeError
  | some cat =>
    let paymentUrl := lookupEndpoint cat pluginName
    match tr.readTarget paymentUrl with
    | none =>
      let payment1 : SenderPayment :=
        { payment with pluginUpdate := some ⟨"failed", PAYMENT_TARGET_NOT_FOUND⟩ }
      (handleFailure payment1 now submitOutcome).map
        fun r => SubmitResult.recovered r.1 r.2
    | some target => .ok (.paid target)

/-- True when the submit outcome is the recovered-as-plugin-failure case. -/
def isRecoveredAsPluginFailure : Except String SubmitResult → Bool
  | .ok (.recovered _ _) => true
  | _ => false

/-- A transport whose every read yields nil. -/
def nilTransport : Transport := ⟨fun _ => none, fun _ => none⟩

/-- Counterexample to C5: with a transport whose counterparty-catalogue
read yields nil, `submit()` does not recover the nil as a plugin failure;
the destructuring of the nil catalogue raises a TypeError that escapes to
the caller, and no PAYMENT_TARGET_NOT_FOUND update or handleFailure call
happens. -/
theorem C5_counterexample :
    submitResolve nilTransport (witnessSenderPayment ⟨"submitted", ""⟩)
      "slash:counterparty" "p2sh" 0 (.ok ()) = .error jsTypeError
    ∧ isRecoveredAsPluginFailure
        (submitResolve nilTransport (witnessSenderPayment ⟨"submitted", ""⟩)
          "slash:counterparty" "p2sh" 0 (.ok ())) = false := by
  constructor
  · rfl
  · rfl

/-- C5 amended: during `submit()`, a nil remote payload at the resolved
endpoint URL — including the case where the `paymentEndpoints` lookup is
nil and the transport then yields nil for the nil URL — sets the payment
pluginUpdate to a failed PAYMENT_TARGET_NOT_FOUND update and delegates to
`handleFailure`, so that case is recovered as a plugin failure; but a nil
counterparty-catalogue read is not recovered: its destructuring raises a
type error that escapes to the caller of `submit()`. -/
theorem C5_target_nil_recovered (tr : Transport) (payment : SenderPayment)
    (url name : String) (now : Nat) (so : Except String Unit) :
    (tr.readCatalogue url = none →
      submitResolve tr payment url name now so = .error jsTypeError)
    ∧ (∀ cat, tr.readCatalogue url = some cat →
        tr.readTarget (lookupEndpoint cat name) = none →
        submitResolve tr payment url name now so =
          (handleFailure
              { payment with pluginUpdate := some ⟨"failed", PAYMENT_TARGET_NOT_FOUND⟩ }
              now so).map (fun r => SubmitResult.recovered r.1 r.2)) := by
  constructor
  · intro hnone
    simp [submitResolve, hnone]
  · intro cat hcat htgt
    simp [submitResolve, hcat, htgt]

/-- A transport with a catalogue for one plugin whose endpoint read yields
nil. -/
def deadEndpointTransport : Transport :=
  ⟨fun _ => some ⟨[("p2sh", "slash:endpoint")]⟩, fun _ => none⟩

/-- Witness for the amended C5 at concrete transports: the nil-catalogue
case escapes as a type error and the nil-target case is recovered through
handleFailure. -/
theorem C5_target_nil_recovered_witness :
    submitResolve nilTransport (witnessSenderPayment ⟨"submitted", ""⟩)
      "slash:cp" "p2sh" 0 (.ok ()) = .error jsTypeError
    ∧ submitResolve deadEndpointTransport (witnessSenderPayment ⟨"submitted", ""⟩)
        "slash:cp" "p2sh" 0 (.ok ()) =
      (handleFailure
          { witnessSenderPayment ⟨"submitted", ""⟩ with
              pluginUpdate := some ⟨"failed", PAYMENT_TARGET_NOT_FOUND⟩ }
          0 (.ok ())).map (fun r => SubmitResult.recovered r.1 r.2) :=
  ⟨(C5_target_nil_recovered nilTransport (witnessSenderPayment ⟨"submitted", ""⟩)
      "slash:cp" "p2sh" 0 (.ok ())).1 rfl,
   (C5_target_nil_recovered deadEndpointTransport
      (witnessSenderPayment ⟨"submitted", ""⟩) "slash:cp" "p2sh" 0 (.ok ())).2
      ⟨[("p2sh", "slash:endpoint")]⟩ rfl rfl⟩

/-! ## PaymentReceiver (src/payments/PaymentReceiver.js)

Amount fields travel as decimal strings in the source and are summed with
`parseInt`; they are embedded directly as the natural numbers those
strings denote. -/

/-- One entry of `receivedByPlugins`. -/
structure ReceivedEntry where
  name : String
  state : String
  amount : Nat
  rawData : String
  receivedAt : Nat
deriving DecidableEq, Repr

/-- The stored incoming payment record as the receiver reads and updates
it. -/
structure IncomingPayment where
  expectedAmount : Nat
  expectedCurrency : String
  expectedDenomination : String
  receivedByPlugins : List ReceivedEntry
  internalState : InternalState
  amount : Option Nat
deriving DecidableEq, Repr

/-- The payload delivered by a plugin for a personal payment. -/
structure RecvPayload where
  id : String
  pluginName : String
  state : String
  amount : Nat
  currency : String
  denomination : String
  clientOrderId : String
  rawData : String
deriving DecidableEq, Repr

/-- The incoming-payment table of the store, keyed by payment id. -/
def IncomingDB := List (String × IncomingPayment)

/-- `db.getIncomingPayment(id)`. -/
def dbGetIncoming (db : IncomingDB) (id : String) : Option IncomingPayment :=
  (List.find? (fun kv => kv.1 = id) db).map fun kv => kv.2

/-- `db.updateIncomingPayment(id, update)`: replace the record stored
under `id`. -/
def dbSetIncoming (db : IncomingDB) (id : String) (p : IncomingPayment) : IncomingDB :=
  List.map (fun kv => if kv.1 = id then (kv.1, p) else kv) db

/-- `PaymentReceiver.updatePayment(payload)`: read the stored incoming
payment by id, assert currency and denomination match the expected ones,
append a `receivedByPlugins` entry, set the `amount` field when the
payload amount equals the expected amount, mark COMPLETED when the
running total reaches the expected amount and IN_PROGRESS with a
`missingAmount` otherwise, and only then write the update to the store
and re-read the record. -/
def receiverUpdatePayment (db : IncomingDB) (payload : RecvPayload) (now : Nat) :
    Except String (IncomingDB × IncomingPayment × Option Nat) :=
  match dbGetIncoming db payload.id with
  | none => .error "PAYMENT_OBJECT_NOT_FOUND"
  | some stored =>
    if stored.expectedCurrency ≠ payload.currency then
      .error "PAYMENT_CURRENCY_MISMATCH"
    else if stored.expectedDenomination ≠ payload.denomination then
      .error "PAYMENT_DENOMINATION_MISMATCH"
    else
      let entry : ReceivedEntry :=
        ⟨payload.pluginName, payload.state, payload.amount, payload.rawData, now⟩
      let newReceived := stored.receivedByPlugins ++ [entry]
      let amountField :=
        if payload.amount = stored.expectedAmount then some payload.amount
        else stored.amount
      let total := (newReceived.map fun e => e.amount).sum
      let updated : IncomingPayment :=
        if stored.expectedAmount ≤ total then
          { stored with
              receivedByPlugins := newReceived
              amount := amountField
              internalState := .COMPLETED }
        else
          { stored with
              receivedByPlugins := newReceived
              amount := amountField
              internalState := .IN_PROGRESS }
      let missing : Option Nat :=
        if stored.expectedAmount ≤ total then none
        else some (stored.expectedAmount - total)
      .ok (dbSetIncoming db payload.id updated, updated, missing)

/-- The store after a `updatePayment` call: a thrown error leaves it as it
was, since the source throws before its single store write. -/
def runReceiverUpdate (db : IncomingDB) (payload : RecvPayload) (now : Nat) : IncomingDB :=
  match receiverUpdatePayment db payload now with
  | .ok r => r.1
  | .error _ => db

/-- The reconciliation result handed to the notification callback. -/
structure HandleResult where
  payment : IncomingPayment
  amountDue : Option Nat
  invoiceURL : Option String
deriving DecidableEq, Repr

/-- The personal branch of `handleNewPayment(payload)`: reconcile through
`updatePayment`; when a shortfall remains, create a continuation invoice
for the missing amount (creation modelled by the `invoiceUrlFor` oracle)
and attach its URL and the amount due to the result. -/
def handleNewPaymentPersonal (db : IncomingDB) (payload : RecvPayload) (now : Nat)
    (invoiceUrlFor : Nat → String) : Except String (IncomingDB × HandleResult) :=
  (receiverUpdatePayment db payload now).map fun r =>
    match r.2.2 with
    | some m => (r.1, ⟨r.2.1, some m, some (invoiceUrlFor m)⟩)
    | none => (r.1, ⟨r.2.1, none, none⟩)

/-- C6: reconciling a personal payload against the stored incoming payment
appends the received entry and yields COMPLETED exactly when the integer
sum of the `receivedByPlugins` amounts reaches `expectedAmount`;
otherwise the state is IN_PROGRESS with a missing amount equal to the
expected amount minus the total received, which `handleNewPayment` uses
to create a continuation invoice attached to the result. -/
theorem C6_reconciliation_completes_iff_total (db : IncomingDB)
    (payload : RecvPayload) (now : Nat) (stored : IncomingPayment)
    (invoiceUrlFor : Nat → String)
    (hget : dbGetIncoming db payload.id = some stored)
    (hcur : stored.expectedCurrency = payload.currency)
    (hden : stored.expectedDenomination = payload.denomination) :
    ∃ db2 updated missing,
      receiverUpdatePayment db payload now = .ok (db2, updated, missing)
      ∧ updated.receivedByPlugins = stored.receivedByPlugins ++
          [⟨payload.pluginName, payload.state, payload.amount, payload.rawData, now⟩]
      ∧ (updated.internalState = .COMPLETED ↔
          stored.expectedAmount ≤ ((updated.receivedByPlugins.map fun e => e.amount).sum))
      ∧ (¬ stored.expectedAmount ≤ ((updated.receivedByPlugins.map fun e => e.amount).sum) →
          updated.internalState = .IN_PROGRESS ∧
          missing = some (stored.expectedAmount -
            ((updated.receivedByPlugins.map fun e => e.amount).sum)))
      ∧ (stored.expectedAmount ≤ ((updated.receivedByPlugins.map fun e => e.amount).sum) →
          missing = none)
      ∧ handleNewPaymentPersonal db payload now invoiceUrlFor =
          .ok (db2, ⟨updated, missing, missing.map invoiceUrlFor⟩) := by
  by_cases hle : stored.expectedAmount ≤
      ((stored.receivedByPlugins ++
        [(⟨payload.pluginName, payload.state, payload.amount, payload.rawData, now⟩ :
          ReceivedEntry)]).map
          fun e => e.amount).sum
  · have hle2 : stored.expectedAmount ≤
        (List.map (fun e => e.amount) stored.receivedByPlugins).sum + payload.amount := by
      simpa using hle
    refine ⟨dbSetIncoming db payload.id
        { stored with
            receivedByPlugins := stored.receivedByPlugins ++
              [⟨payload.pluginName, payload.state, payload.amount, payload.rawData, now⟩]
            amount := if payload.amount = stored.expectedAmount then some payload.amount
              else stored.amount
            internalState := .COMPLETED },
      { stored with
            receivedByPlugins := stored.receivedByPlugins ++
              [⟨payload.pluginName, payload.state, payload.amount, payload.rawData, now⟩]
            amount := if payload.amount = stored.expectedAmount then some payload.amount
              else stored.amount
            internalState := .COMPLETED },
      none, ?_, rfl, ?_, ?_, fun _ => rfl, ?_⟩
    · simp [receiverUpdatePayment, hget, hcur, hden, hle2]
    · simpa using hle
    · intro h
      exact absurd hle h
    · simp [handleNewPaymentPersonal, receiverUpdatePayment, hget, hcur, hden, hle2,
        Except.map]
  · have hle2 : ¬ stored.expectedAmount ≤
        (List.map (fun e => e.amount) stored.receivedByPlugins).sum + payload.amount := by
      simpa using hle
    refine ⟨dbSetIncoming db payload.id
        { stored with
            receivedByPlugins := stored.receivedByPlugins ++
              [⟨payload.pluginName, payload.state, payload.amount, payload.rawData, now⟩]
            amount := if payload.amount = stored.expectedAmount then some payload.amount
              else stored.amount
            internalState := .IN_PROGRESS },
      { stored with
            receivedByPlugins := stored.receivedByPlugins ++
              [⟨payload.pluginName, payload.state, payload.amount, payload.rawData, now⟩]
            amount := if payload.amount = stored.expectedAmount then some payload.amount
              else stored.amount
            internalState := .IN_PROGRESS },
      some (stored.expectedAmount -
        ((List.map (fun e => e.amount) stored.receivedByPlugins).sum + payload.amount)),
      ?_, rfl, ?_, ?_, ?_, ?_⟩
    · simp [receiverUpdatePayment, hget, hcur, hden, hle2]
    · simpa using hle
    · intro h
      refine ⟨rfl, ?_⟩
      simp
    · intro h
      exact absurd h hle
    · simp [handleNewPaymentPersonal, receiverUpdatePayment, hget, hcur, hden, hle2,
        Except.map]

/-- A stored personal incoming payment used by the receiver witnesses:
expects 100 BASE BTC, has already received 60. -/
def witnessStored : IncomingPayment :=
  { expectedAmount := 100, expectedCurrency := "BTC", expectedDenomination := "BASE"
    receivedByPlugins := [⟨"p2sh", "success", 60, "raw0", 1⟩]
    internalState := .IN_PROGRESS, amount := none }

/-- A payload delivering 30 more BTC BASE units for the witness payment. -/
def witnessPayload : RecvPayload :=
  ⟨"id-1", "p2tr", "success", 30, "BTC", "BASE", "inv-9", "raw1"⟩

/-- Witness for C6 at a concrete store holding the witness payment. -/
theorem C6_reconciliation_completes_iff_total_witness :
    ∃ db2 updated missing,
      receiverUpdatePayment [("id-1", witnessStored)] witnessPayload 2 =
        .ok (db2, updated, missing)
      ∧ updated.receivedByPlugins = witnessStored.receivedByPlugins ++
          [⟨witnessPayload.pluginName, witnessPayload.state, witnessPayload.amount,
            witnessPayload.rawData, 2⟩]
      ∧ (updated.internalState = .COMPLETED ↔
          witnessStored.expectedAmount ≤
            ((updated.receivedByPlugins.map fun e => e.amount).sum))
      ∧ (¬ witnessStored.expectedAmount ≤
            ((updated.receivedByPlugins.map fun e => e.amount).sum) →
          updated.internalState = .IN_PROGRESS ∧
          missing = some (witnessStored.expectedAmount -
            ((updated.receivedByPlugins.map fun e => e.amount).sum)))
      ∧ (witnessStored.expectedAmount ≤
            ((updated.receivedByPlugins.map fun e => e.amount).sum) →
          missing = none)
      ∧ handleNewPaymentPersonal [("id-1", witnessStored)] witnessPayload 2
          (fun m => String.append "invoice-for-" (toString m)) =
          .ok (db2, ⟨updated, missing,
            missing.map (fun m => String.append "invoice-for-" (toString m))⟩) :=
  C6_reconciliation_completes_iff_total [("id-1", witnessStored)] witnessPayload 2
    witnessStored (fun m => String.append "invoice-for-" (toString m)) rfl rfl rfl

/-- C7: a personal payload whose currency or denomination differs from
the stored expectation makes reconciliation raise
PAYMENT_CURRENCY_MISMATCH or PAYMENT_DENOMINATION_MISMATCH respectively,
and the stored incoming payment is left unchanged: the store still holds
the original record, no entry appended and its state untouched. -/
theorem C7_mismatch_leaves_store_unchanged (db : IncomingDB)
    (payload : RecvPayload) (now : Nat) (stored : IncomingPayment)
    (hget : dbGetIncoming db payload.id = some stored) :
    (stored.expectedCurrency ≠ payload.currency →
      receiverUpdatePayment db payload now = .error "PAYMENT_CURRENCY_MISMATCH")
    ∧ (stored.expectedCurrency = payload.currency →
       stored.expectedDenomination ≠ payload.denomination →
       receiverUpdatePayment db payload now = .error "PAYMENT_DENOMINATION_MISMATCH")
    ∧ (stored.expectedCurrency ≠ payload.currency ∨
       stored.expectedDenomination ≠ payload.denomination →
       runReceiverUpdate db payload now = db ∧
       dbGetIncoming (runReceiverUpdate db payload now) payload.id = some stored) := by
  refine ⟨?_, ?_, ?_⟩
  · intro hne
    simp [receiverUpdatePayment, hget, hne]
  · intro hcur hne
    simp [receiverUpdatePayment, hget, hcur, hne]
  · intro hmis
    have herr : ∃ msg, receiverUpdatePayment db payload now = .error msg := by
      rcases hmis with hne | hne
      · exact ⟨"PAYMENT_CURRENCY_MISMATCH", by simp [receiverUpdatePayment, hget, hne]⟩
      · by_cases hcur : stored.expectedCurrency = payload.currency
        · exact ⟨"PAYMENT_DENOMINATION_MISMATCH",
            by simp [receiverUpdatePayment, hget, hcur, hne]⟩
        · exact ⟨"PAYMENT_CURRENCY_MISMATCH",
            by simp [receiverUpdatePayment, hget, hcur]⟩
    rcases herr with ⟨msg, hmsg⟩
    have hrun : runReceiverUpdate db payload now = db := by
      simp [runReceiverUpdate, hmsg]
    exact ⟨hrun, by rw [hrun]; exact hget⟩

/-- Witness for C7: a payload in the wrong currency and one in the wrong
denomination against the concrete stored payment. -/
theorem C7_mismatch_leaves_store_unchanged_witness :
    receiverUpdatePayment [("id-1", witnessStored)]
      { witnessPayload with currency := "USD" } 2 =
        .error "PAYMENT_CURRENCY_MISMATCH"
    ∧ receiverUpdatePayment [("id-1", witnessStored)]
        { witnessPayload with denomination := "MAIN" } 2 =
        .error "PAYMENT_DENOMINATION_MISMATCH"
    ∧ runReceiverUpdate [("id-1", witnessStored)]
        { witnessPayload with currency := "USD" } 2 = [("id-1", witnessStored)] :=
  ⟨(C7_mismatch_leaves_store_unchanged [("id-1", witnessStored)]
      { witnessPayload with currency := "USD" } 2 witnessStored rfl).1 (by decide),
   (C7_mismatch_leaves_store_unchanged [("id-1", witnessStored)]
      { witnessPayload with denomination := "MAIN" } 2 witnessStored rfl).2.1 rfl
      (by decide),
   ((C7_mismatch_leaves_store_unchanged [("id-1", witnessStored)]
      { witnessPayload with currency := "USD" } 2 witnessStored rfl).2.2
      (Or.inl (by decide))).1⟩

/-! ## Store (DB) -/

/-- The three forms of the `removed` option of the store getters: option
absent, `removed: true`, and the star wildcard. -/
inductive RemovedFilter where
  | absent
  | onlyRemoved
  | star
deriving DecidableEq, Repr

/-- Modelled from the spec: an outgoing payment record as stored by the DB
(the DB implementation is absent from the sources; only its test and its
type declaration are present).  The record content beyond the id and the
soft-delete flag is an association list of scalar fields, over which a
patch acts as a shallow merge. -/
structure StoredRecord where
  id : String
  fields : List (String × String)
  removed : Bool
deriving DecidableEq, Repr

/-- The outgoing-payment table, keyed by payment id. -/
abbrev OutgoingDB := List (String × StoredRecord)

/-- Modelled from the spec: `getOutgoingPayment(id, opts)` returns the
record stored under `id` subject to the removed filter: with no option
only when the record is not removed, with `removed: true` only
tombstones, with the star wildcard unconditionally. -/
def getOutgoingPayment (db : OutgoingDB) (id : String) (opt : RemovedFilter) :
    Option StoredRecord :=
  match (List.find? (fun kv => kv.1 = id) db).map (fun kv => kv.2) with
  | none => none
  | some r =>
    match opt with
    | .absent => if r.removed then none else some r
    | .onlyRemoved => if r.removed then some r else none
    | .star => some r

/-- Modelled from the spec: `saveOutgoingPayment(p)` stores the record,
refusing a duplicate id. -/
def saveOutgoingPayment (db : OutgoingDB) (p : StoredRecord) : Except String OutgoingDB :=
  if (List.find? (fun kv => kv.1 = p.id) db).isSome then .error "DUPLICATE_ID"
  else .ok (db ++ [(p.id, p)])

/-- A shallow-merge patch: field overrides plus an optional new value for
the soft-delete flag. -/
structure RecordPatch where
  fields : List (String × String)
  removed : Option Bool
deriving DecidableEq, Repr

/-- Override or append one field. -/
def setField (fs : List (String × String)) (kv : String × String) :
    List (String × String) :=
  if (List.find? (fun f => f.1 = kv.1) fs).isSome then
    fs.map fun f => if f.1 = kv.1 then kv else f
  else fs ++ [kv]

/-- Modelled from the spec: applying a shallow merge patch preserves the
fields the patch does not mention. -/
def applyPatch (r : StoredRecord) (patch : RecordPatch) : StoredRecord :=
  { r with
      fields := patch.fields.foldl setField r.fields
      removed := patch.removed.getD r.removed }

/-- Modelled from the spec: `updateOutgoingPayment(id, patch)` merges the
patch into the record stored under `id`, failing when the id is absent. -/
def updateOutgoingPayment (db : OutgoingDB) (id : String) (patch : RecordPatch) :
    Except String OutgoingDB :=
  if (List.find? (fun kv => kv.1 = id) db).isSome then
    .ok (db.map fun kv => if kv.1 = id then (kv.1, applyPatch kv.2 patch) else kv)
  else .error "NOT_FOUND"

theorem find_map_update (db : OutgoingDB) (id : String) (patch : RecordPatch) :
    List.find? (fun kv => kv.1 = id)
        (List.map (fun kv => if kv.1 = id then (kv.1, applyPatch kv.2 patch) else kv) db) =
      (List.find? (fun kv => kv.1 = id) db).map fun kv => (kv.1, applyPatch kv.2 patch) := by
  induction db with
  | nil => simp
  | cons hd tl ih =>
    by_cases h : hd.1 = id
    · simp [List.find?, h]
    · simp [List.find?, h, ih]

/-- C8: for a saved outgoing payment found in the store and not removed,
the default getter returns the record itself; after
`updateOutgoingPayment(id, removed true)` the default getter returns
nothing while both the `removed: true` getter and the star getter return
the tombstoned record. -/
theorem C8_soft_delete_tombstone (db db2 : OutgoingDB) (p : StoredRecord)
    (hfind : List.find? (fun kv => kv.1 = p.id) db = some (p.id, p))
    (hlive : p.removed = false)
    (hupd : updateOutgoingPayment db p.id ⟨[], some true⟩ = .ok db2) :
    getOutgoingPayment db p.id .absent = some p
    ∧ getOutgoingPayment db2 p.id .absent = none
    ∧ getOutgoingPayment db2 p.id .onlyRemoved = some { p with removed := true }
    ∧ getOutgoingPayment db2 p.id .star = some { p with removed := true } := by
  have hdb2 : db2 = db.map fun kv =>
      if kv.1 = p.id then (kv.1, applyPatch kv.2 ⟨[], some true⟩) else kv := by
    rw [updateOutgoingPayment, hfind] at hupd
    simpa using hupd.symm
  have htomb : applyPatch p ⟨[], some true⟩ = { p with removed := true } := by
    simp [applyPatch]
  have hfind2 : List.find? (fun kv => kv.1 = p.id) db2 =
      some (p.id, { p with removed := true }) := by
    rw [hdb2, find_map_update, hfind]
    simp [htomb]
  refine ⟨?_, ?_, ?_, ?_⟩
  · simp [getOutgoingPayment, hfind, hlive]
  · simp [getOutgoingPayment, hfind2]
  · simp [getOutgoingPayment, hfind2]
  · simp [getOutgoingPayment, hfind2]

/-- A concrete saved outgoing payment for the C8 witness. -/
def wRecord : StoredRecord :=
  ⟨"pay-1", [("amount", "100"), ("currency", "BTC")], false⟩

/-- Witness for C8 at a one-record store. -/
theorem C8_soft_delete_tombstone_witness :
    getOutgoingPayment [("pay-1", wRecord)] "pay-1" .absent = some wRecord
    ∧ getOutgoingPayment [("pay-1", { wRecord with removed := true })] "pay-1" .absent = none
    ∧ getOutgoingPayment [("pay-1", { wRecord with removed := true })] "pay-1" .onlyRemoved =
        some { wRecord with removed := true }
    ∧ getOutgoingPayment [("pay-1", { wRecord with removed := true })] "pay-1" .star =
        some { wRecord with removed := true } := by
  have h := C8_soft_delete_tombstone [("pay-1", wRecord)]
    [("pay-1", { wRecord with removed := true })] wRecord rfl rfl
    (by simp [updateOutgoingPayment, applyPatch, wRecord, List.find?])
  simpa [wRecord] using h

/-! ## PluginManager.dispatchEvent (src/plugins/PluginManager.js) -/

/-- A plugin manifest; `events` is optional. -/
structure Manifest where
  name : String
  type : String
  events : Option (List String)
deriving DecidableEq, Repr

/-- A registry entry: manifest, handler table and active flag.  The
handler yields the outcome of `plugin[event](data)` — an `Except.error`
covers both a thrown handler and a missing method. -/
structure PluginEntry where
  manifest : Manifest
  handler : String → String → Except String Unit
  active : Bool

/-- The subscription filter of `dispatchEvent`, evaluated entry by entry
in registry order: reading `manifest.events.includes(event)` on a
manifest with no `events` throws a TypeError, and this happens outside
the per-plugin try block. -/
def filterSubscribed (event : String) : List PluginEntry → Except String (List PluginEntry)
  | [] => .ok []
  | p :: rest =>
    match p.manifest.events with
    | none => .error jsTypeError
    | some evs =>
      (filterSubscribed event rest).map fun tail =>
        if evs.contains event && p.active then p :: tail else tail

/-- `dispatchEvent(event, data)`: filter the registry down to the active
subscribed plugins, then run every subscribed handler, recording each
outcome; a handler exception is caught per plugin and does not abort the
dispatch. -/
def dispatchEvent (reg : List PluginEntry) (event data : String) :
    Except String (List (String × Except String Unit)) :=
  (filterSubscribed event reg).map fun subs =>
    subs.map fun p => (p.manifest.name, p.handler event data)

theorem filterSubscribed_ok (event : String) (reg : List PluginEntry)
    (hev : ∀ p ∈ reg, p.manifest.events ≠ none) :
    filterSubscribed event reg =
      .ok (reg.filter fun p => (p.manifest.events.getD []).contains event && p.active) := by
  induction reg with
  | nil => simp [filterSubscribed]
  | cons hd tl ih =>
    have hhd := hev hd (List.mem_cons_self hd tl)
    cases hm : hd.manifest.events with
    | none => exact absurd hm hhd
    | some evs =>
      have htl : ∀ p ∈ tl, p.manifest.events ≠ none :=
        fun p hp => hev p (List.mem_cons_of_mem hd hp)
      simp [filterSubscribed, hm, ih htl, List.filter_cons, Except.map]

/-- C9: when every registered plugin carries an events list,
`dispatchEvent(e, d)` resolves normally to the outcomes of exactly those
plugins that are active and list `e` among their events, invoked in
registry order — so one subscribed handler raising an exception leaves
the outcomes of every other subscribed plugin in place and does not make
the dispatch reject. -/
theorem C9_dispatch_invokes_subscribed (reg : List PluginEntry) (event data : String)
    (hev : ∀ p ∈ reg, p.manifest.events ≠ none) :
    dispatchEvent reg event data =
      .ok ((reg.filter fun p => (p.manifest.events.getD []).contains event && p.active).map
        fun p => (p.manifest.name, p.handler event data)) := by
  rw [dispatchEvent, filterSubscribed_ok event reg hev]
  rfl

/-- Subscribed active plugin whose handler throws. -/
def wPluginA : PluginEntry :=
  ⟨⟨"a", "payment", some ["e"]⟩, fun _ _ => .error "boom", true⟩

/-- Subscribed active plugin whose handler succeeds. -/
def wPluginB : PluginEntry :=
  ⟨⟨"b", "payment", some ["e", "f"]⟩, fun _ _ => .ok (), true⟩

/-- Subscribed but inactive plugin. -/
def wPluginC : PluginEntry :=
  ⟨⟨"c", "payment", some ["e"]⟩, fun _ _ => .ok (), false⟩

/-- Active plugin not subscribed to the event. -/
def wPluginD : PluginEntry :=
  ⟨⟨"d", "payment", some ["f"]⟩, fun _ _ => .ok (), true⟩

/-- Witness for C9: with a throwing subscribed plugin, an inactive plugin
and an unsubscribed plugin in the registry, the dispatch still resolves
and invokes exactly the two active subscribed plugins. -/
theorem C9_dispatch_invokes_subscribed_witness :
    dispatchEvent [wPluginA, wPluginB, wPluginC, wPluginD] "e" "d" =
      .ok (([wPluginA, wPluginB, wPluginC, wPluginD].filter
          fun p => (p.manifest.events.getD []).contains "e" && p.active).map
        fun p => (p.manifest.name, p.handler "e" "d"))
    ∧ dispatchEvent [wPluginA, wPluginB, wPluginC, wPluginD] "e" "d" =
      .ok [("a", .error "boom"), ("b", .ok ())] := by
  have h := C9_dispatch_invokes_subscribed [wPluginA, wPluginB, wPluginC, wPluginD]
    "e" "d" (by
      intro p hp
      simp only [List.mem_cons, List.not_mem_nil, or_false] at hp
      rcases hp with h | h | h | h <;> subst h <;>
        simp [wPluginA, wPluginB, wPluginC, wPluginD])
  exact ⟨h, by rw [h]; rfl⟩

/-- Modelled from the spec: the events clause of manifest validation (the
plugin utils module is absent from the sources): `events` is optional;
when present it must be a sequence of unique strings; payment-type
plugins must include the receive event among them. -/
def validateManifestEvents (m : Manifest) : Bool :=
  match m.events with
  | none => decide (m.type ≠ "payment")
  | some evs =>
    decide evs.Nodup && (decide (m.type ≠ "payment") || evs.contains "receivePayment")

theorem filterSubscribed_error (event : String) (reg : List PluginEntry)
    (q : PluginEntry) (hmem : q ∈ reg) (hq : q.manifest.events = none) :
    filterSubscribed event reg = .error jsTypeError := by
  induction reg with
  | nil => cases hmem
  | cons hd tl ih =>
    cases hm : hd.manifest.events with
    | none => simp [filterSubscribed, hm]
    | some evs =>
      rcases List.mem_cons.mp hmem with h | h
      · subst h
        rw [hm] at hq
        cases hq
      · simp [filterSubscribed, hm, ih h, Except.map]

/-- C10: `dispatchEvent` is total only over registries whose every
manifest carries an events list: as soon as one registered plugin has no
events field — even an inactive one — the property access in the subscription
filter throws outside the per-plugin try block, so the whole dispatch
rejects with a type error, as witnessed by the returned error carrying no
handler outcome at all; yet the modelled manifest validation accepts a
non-payment manifest without an events field. -/
theorem C10_dispatch_rejects_missing_events (reg : List PluginEntry)
    (q : PluginEntry) (event data : String)
    (hmem : q ∈ reg) (hq : q.manifest.events = none) :
    dispatchEvent reg event data = .error jsTypeError
    ∧ (q.manifest.type ≠ "payment" → validateManifestEvents q.manifest = true) := by
  constructor
  · rw [dispatchEvent, filterSubscribed_error event reg q hmem hq]
    rfl
  · intro ht
    simp [validateManifestEvents, hq, ht]

/-- An active non-payment plugin whose manifest has no events field. -/
def wPluginNoEvents : PluginEntry :=
  ⟨⟨"hist", "history", none⟩, fun _ _ => .ok (), true⟩

/-- Witness for C10: a registry holding one well-formed plugin and one
events-less plugin makes the dispatch reject although the events-less
manifest passes validation. -/
theorem C10_dispatch_rejects_missing_events_witness :
    dispatchEvent [wPluginA, wPluginNoEvents] "e" "d" = .error jsTypeError
    ∧ validateManifestEvents wPluginNoEvents.manifest = true := by
  have h := C10_dispatch_rejects_missing_events [wPluginA, wPluginNoEvents]
    wPluginNoEvents "e" "d"
    (List.mem_cons_of_mem wPluginA (List.mem_cons_self wPluginNoEvents []))
    rfl
  exact ⟨h.1, h.2 (by simp [wPluginNoEvents])⟩

end Paykit
